import Mathlib

/-!
Verification of `cmlutils` (files `cmlutils/ssh.py` and `cmlutils/cdswctl.py`):
a shallow embedding of the tunnel-banner handshake of `open_ssh_endpoint`,
the archive install pipeline `_download_and_extract` (with
`_get_cdswctl_download_url`), and the authentication call `cdswctl_login`,
together with theorems settling the specification's claims about them.

All string primitives are re-implemented structurally over `List Char`
(mirroring the Python semantics of `str.strip`, `str.split(" ")`,
`str.isdigit`, `int`) so that every definition evaluates by kernel
reduction.
-/

instance {ε α : Type} [DecidableEq ε] [DecidableEq α] : DecidableEq (Except ε α) := fun a b =>
  match a, b with
  | .ok x, .ok y =>
      if h : x = y then .isTrue (congrArg Except.ok h)
      else .isFalse (fun hh => h (Except.ok.inj hh))
  | .error x, .error y =>
      if h : x = y then .isTrue (congrArg Except.error h)
      else .isFalse (fun hh => h (Except.error.inj hh))
  | .ok _, .error _ => .isFalse (fun hh => Except.noConfusion hh)
  | .error _, .ok _ => .isFalse (fun hh => Except.noConfusion hh)

/-- ASCII whitespace, the characters Python's `str.strip()` removes from
the banner line in practice (the line is ASCII terminal output). -/
def isSpaceChar (c : Char) : Bool :=
  c = ' ' || c = '\t' || c = '\n' || c = '\r'

/-- Python `line.strip()`: remove whitespace from both ends. -/
def pyStrip (s : String) : String :=
  ⟨((s.toList.dropWhile isSpaceChar).reverse.dropWhile isSpaceChar).reverse⟩

/-- Helper for `pySplitSpace`: accumulate the current field (reversed). -/
def splitSpaceAux : List Char → List Char → List String
  | [], acc => [⟨acc.reverse⟩]
  | c :: cs, acc =>
      if c = ' ' then ⟨acc.reverse⟩ :: splitSpaceAux cs []
      else splitSpaceAux cs (c :: acc)

/-- Python `s.split(" ")`: split on every single space, keeping empty
fields (so `"".split(" ") = [""]` and `"a  b".split(" ") = ["a","","b"]`). -/
def pySplitSpace (s : String) : List String :=
  splitSpaceAux s.toList []

/-- Python `s.isdigit()` restricted to ASCII: true iff the string is
non-empty and every character is a decimal digit.  This is the check the
code applies to the 4th banner field (`arr[3].isdigit()`). -/
def pyIsDigit (s : String) : Bool :=
  !s.toList.isEmpty && s.toList.all (fun c => c.isDigit)

/-- Python `int(s)` on a string of decimal digits (the only shape on which
the code calls it, guarded by `isdigit`). -/
def pyIntOfDigits (s : String) : Nat :=
  s.toList.foldl (fun a c => a * 10 + (c.toNat - 48)) 0

/-- Result of one run of the banner-reading tail of `open_ssh_endpoint`
(`ssh.py` lines 56-76).  `drainedStderr` records whether
`ssh_call.stderr.readlines()` was executed on that path.  `outcome` is the
Python control flow made explicit: `.ok (none, -1)` is the literal
`return None, -1`; `.ok (some (), p)` is `return ssh_call, port_number`
with the process handle abstracted to `some ()`; `.error msg` is the raised
`Exception(msg)`. -/
structure TunnelRun where
  drainedStderr : Bool
  outcome : Except String (Option Unit × Int)
deriving DecidableEq, Repr

/-- The part of `open_ssh_endpoint` (`ssh.py`) that runs after the
subprocess is spawned, as a function of the first line returned by
`ssh_call.stdout.readline()`.  In text mode `readline` yields `""` exactly
at end-of-stream (it never yields `None`, so the code's `line == None`
disjunct is vacuous).  Otherwise the code strips the line, splits on
single spaces, and checks `len(arr) <= 3 or not arr[3].isdigit()`;
on failure it raises, on success it returns `(ssh_call, int(arr[3]))`. -/
def open_ssh_endpoint (line : String) : TunnelRun :=
  if line = "" then
    { drainedStderr := true, outcome := .ok (none, -1) }
  else if (pySplitSpace (pyStrip line)).length ≤ 3
      || !pyIsDigit ((pySplitSpace (pyStrip line)).getD 3 "") then
    { drainedStderr := true,
      outcome := .error ("SSH connection failed unexpectedly: " ++ pyStrip line) }
  else
    { drainedStderr := false,
      outcome := .ok (some (),
        (pyIntOfDigits ((pySplitSpace (pyStrip line)).getD 3 "") : Int)) }

example : open_ssh_endpoint "foo bar baz 4321" =
    { drainedStderr := false, outcome := .ok (some (), 4321) } := by decide

example : open_ssh_endpoint "" =
    { drainedStderr := true, outcome := .ok (none, -1) } := by decide

example : open_ssh_endpoint "foo bar" =
    { drainedStderr := true,
      outcome := .error "SSH connection failed unexpectedly: foo bar" } := by decide

example : open_ssh_endpoint "\n" =
    { drainedStderr := true,
      outcome := .error "SSH connection failed unexpectedly: " } := by decide

/-- C1: the first read of the subprocess's standard output is classified
into two distinct failure outcomes: an empty read (end-of-stream) drains
standard error and returns the sentinel `(None, -1)` without raising,
while a received line that strips to fewer than four fields or whose 4th
field is not numeric drains standard error and raises, never returning
the sentinel. -/
theorem c1_first_read_classification (line : String) :
    (open_ssh_endpoint "" =
      { drainedStderr := true, outcome := .ok (none, -1) }) ∧
    (line ≠ "" →
      ((pySplitSpace (pyStrip line)).length ≤ 3 ∨
        pyIsDigit ((pySplitSpace (pyStrip line)).getD 3 "") = false) →
      open_ssh_endpoint line =
        { drainedStderr := true,
          outcome :=
            .error ("SSH connection failed unexpectedly: " ++ pyStrip line) }) := by
  refine ⟨by decide, fun hne hbad => ?_⟩
  have hcond : ((pySplitSpace (pyStrip line)).length ≤ 3
      || !pyIsDigit ((pySplitSpace (pyStrip line)).getD 3 "")) = true := by
    rcases hbad with h | h
    · rw [decide_eq_true h, Bool.true_or]
    · rw [h, Bool.not_false, Bool.or_true]
  unfold open_ssh_endpoint
  rw [if_neg hne, if_pos hcond]

/-- Witness for C1 at the concrete inputs `""` and `"foo bar"`. -/
theorem c1_witness :
    (open_ssh_endpoint "" =
      { drainedStderr := true, outcome := .ok (none, -1) }) ∧
    open_ssh_endpoint "foo bar" =
      { drainedStderr := true,
        outcome :=
          .error ("SSH connection failed unexpectedly: " ++ pyStrip "foo bar") } :=
  ⟨(c1_first_read_classification "foo bar").1,
   (c1_first_read_classification "foo bar").2 (by decide) (by decide)⟩

/-- C2: every first line that strips to four or more space-separated
fields whose 4th field is a decimal integer makes `open_ssh_endpoint`
return the live process handle together with that field parsed as the
port. -/
theorem c2_banner_success (line : String)
    (h1 : 4 ≤ (pySplitSpace (pyStrip line)).length)
    (h2 : pyIsDigit ((pySplitSpace (pyStrip line)).getD 3 "") = true) :
    open_ssh_endpoint line =
      { drainedStderr := false,
        outcome := .ok (some (),
          (pyIntOfDigits ((pySplitSpace (pyStrip line)).getD 3 "") : Int)) } := by
  have hne : line ≠ "" := fun h => by
    rw [h] at h1
    exact absurd h1 (by decide)
  have hlen : ¬ (pySplitSpace (pyStrip line)).length ≤ 3 := by omega
  have hcond : ((pySplitSpace (pyStrip line)).length ≤ 3
      || !pyIsDigit ((pySplitSpace (pyStrip line)).getD 3 "")) = false := by
    rw [decide_eq_false hlen, h2, Bool.not_true, Bool.or_false]
  unfold open_ssh_endpoint
  rw [if_neg hne, if_neg (by rw [hcond]; exact Bool.false_ne_true)]

/-- Witness for C2 at the banner line `"foo bar baz 4321"`: port 4321. -/
theorem c2_witness :
    open_ssh_endpoint "foo bar baz 4321" =
      { drainedStderr := false,
        outcome := .ok (some (),
          (pyIntOfDigits ((pySplitSpace (pyStrip "foo bar baz 4321")).getD 3 "") : Int)) } ∧
    open_ssh_endpoint "foo bar baz 4321" =
      { drainedStderr := false, outcome := .ok (some (), 4321) } :=
  ⟨c2_banner_success "foo bar baz 4321" (by decide) (by decide), by decide⟩

/-- C10: a non-empty first line consisting only of whitespace strips to
the empty string, splits to a single empty field, and is classified as
the hard protocol violation (raise), not as the soft sentinel
`(None, -1)`; the sentinel is produced exactly when `readline` returns
the empty string, i.e. at true end-of-stream. -/
theorem c10_whitespace_only_line (line : String) :
    (line ≠ "" → pyStrip line = "" →
      open_ssh_endpoint line =
        { drainedStderr := true,
          outcome := .error "SSH connection failed unexpectedly: " }) ∧
    (open_ssh_endpoint line =
        { drainedStderr := true, outcome := .ok (none, -1) } ↔ line = "") := by
  constructor
  · intro hne hws
    have hcond : ((pySplitSpace (pyStrip line)).length ≤ 3
        || !pyIsDigit ((pySplitSpace (pyStrip line)).getD 3 "")) = true := by
      rw [hws]; decide
    unfold open_ssh_endpoint
    rw [if_neg hne, if_pos hcond, hws]
    decide
  · constructor
    · intro h
      by_cases hl : line = ""
      · exact hl
      · exfalso
        unfold open_ssh_endpoint at h
        rw [if_neg hl] at h
        split at h
        · exact Except.noConfusion (congrArg TunnelRun.outcome h)
        · exact Bool.noConfusion (congrArg TunnelRun.drainedStderr h)
    · intro h
      rw [h]
      decide

/-- Witness for C10 at the whitespace-only line `"\n"`. -/
theorem c10_witness :
    open_ssh_endpoint "\n" =
      { drainedStderr := true,
        outcome := .error "SSH connection failed unexpectedly: " } ∧
    (open_ssh_endpoint "\n" =
        { drainedStderr := true, outcome := .ok (none, -1) } ↔ ("\n" : String) = "") :=
  ⟨(c10_whitespace_only_line "\n").1 (by decide) (by decide),
   (c10_whitespace_only_line "\n").2⟩

/-- C8 counterexample: on banner line `"a b c 0"` the code returns a live
handle whose port is 0, which is not in the range 1-65535 — the code
performs no range check on the parsed port. -/
theorem c8_counterexample :
    open_ssh_endpoint "a b c 0" =
      { drainedStderr := false, outcome := .ok (some (), 0) } ∧
    ¬ ((1 : Int) ≤ 0 ∧ (0 : Int) ≤ 65535) := by decide

/-- C8 amended: a handle is returned only after the status line has been
successfully parsed — the line is non-empty, strips to at least four
space-separated fields, and the 4th field is all digits — and the port is
exactly that field parsed as a (non-negative) integer; the 1-65535 range
is not checked. -/
theorem c8_handle_only_after_parse (line : String) (p : Int)
    (hret : (open_ssh_endpoint line).outcome = .ok (some (), p)) :
    line ≠ "" ∧
    3 < (pySplitSpace (pyStrip line)).length ∧
    pyIsDigit ((pySplitSpace (pyStrip line)).getD 3 "") = true ∧
    p = (pyIntOfDigits ((pySplitSpace (pyStrip line)).getD 3 "") : Int) ∧
    0 ≤ p := by
  by_cases hl : line = ""
  · rw [hl, show open_ssh_endpoint "" =
      { drainedStderr := true, outcome := .ok (none, -1) } from by decide] at hret
    exact absurd (congrArg Prod.fst (Except.ok.inj hret)) (by simp)
  · unfold open_ssh_endpoint at hret
    rw [if_neg hl] at hret
    cases hcb : ((pySplitSpace (pyStrip line)).length ≤ 3
        || !pyIsDigit ((pySplitSpace (pyStrip line)).getD 3 "")) with
    | true =>
        rw [if_pos hcb] at hret
        exact Except.noConfusion hret
    | false =>
        rw [if_neg (by rw [hcb]; exact Bool.false_ne_true)] at hret
        obtain ⟨hlen, hdig⟩ := Bool.or_eq_false_iff.mp hcb
        have hdig' : pyIsDigit ((pySplitSpace (pyStrip line)).getD 3 "") = true := by
          simpa using hdig
        have hp : (pyIntOfDigits ((pySplitSpace (pyStrip line)).getD 3 "") : Int) = p :=
          congrArg Prod.snd (Except.ok.inj hret)
        exact ⟨hl, by have := of_decide_eq_false hlen; omega, hdig', hp.symm,
          hp ▸ Int.natCast_nonneg _⟩

/-- Witness for amended C8 at the banner line `"a b c 7"`. -/
theorem c8_witness :
    ("a b c 7" : String) ≠ "" ∧
    3 < (pySplitSpace (pyStrip "a b c 7")).length ∧
    pyIsDigit ((pySplitSpace (pyStrip "a b c 7")).getD 3 "") = true ∧
    (7 : Int) = (pyIntOfDigits ((pySplitSpace (pyStrip "a b c 7")).getD 3 "") : Int) ∧
    (0 : Int) ≤ 7 :=
  c8_handle_only_after_parse "a b c 7" 7 (by decide)

/-- Python `url.split("/")[-1]`: the final path segment of the URL,
used by `_download_and_extract` as the archive file name. -/
def lastSegment (url : String) : String :=
  ((url.toList.reverse.takeWhile (fun c => c ≠ '/')).reverse : List Char) |> String.mk

/-- The proper ancestors of a path (paths as component lists): the
embedding of Python's `Path(dir_path).parents`, so that
`Path(base) in Path(dir_path).parents` becomes
`base ∈ properAncestors dirPath`. -/
def properAncestors : List String → List (List String)
  | [] => []
  | a :: as => [] :: (properAncestors as).map (a :: ·)

/-- The platform branch of `_get_cdswctl_download_url` (`cdswctl.py`):
the relative path joined (by the external `urllib.parse.urljoin`
collaborator) onto the host's `cli/` base.  Python's `sys.platform` is a
string compared against `"linux"`, `"linux2"` and `"darwin"`; anything
else falls through to the windows zip. -/
def cdswctlRelPath (platform : String) : String :=
  if platform = "linux" ∨ platform = "linux2" then "linux/amd64/cdsw.tar.gz"
  else if platform = "darwin" then "darwin/amd64/cdsw.tar.gz"
  else "windows/amd64/cdsw.zip"

/-- Archive format of a downloaded file, determined by its name — the
spec's `archiveFormat` field of a `DownloadTarget`. -/
inductive ArchiveFormat
  | targz
  | zip
deriving DecidableEq, Repr

/-- `ArchiveFormat` of a file name: `.zip` files are zip archives, the
others here are `.tar.gz` (suffix test done structurally on the
character list). -/
def archiveFormatOfName (name : String) : ArchiveFormat :=
  if name.toList.reverse.take 4 = (".zip" : String).toList.reverse then .zip
  else .targz

/-- The downloaded archive, modelled by its format and its top-level
directories, each given with the names of the files it contains (the
layout contract says exactly one directory containing `cdswctl`; the
model permits arbitrary layouts so the code's behaviour off-contract is
visible). -/
structure Archive where
  format : ArchiveFormat
  dirs : List (String × List String)
deriving DecidableEq, Repr

/-- Semantics of `tarfile.open(file_path)` + `extractall` as used by
`_download_and_extract`: the Python `tarfile` module reads tar archives
(with gzip compression auto-detected) but cannot read zip archives —
`tarfile.open` on a zip file raises `tarfile.ReadError`.  The code calls
this unconditionally; there is no `zipfile` call anywhere in the file. -/
def tarfileExtract (a : Archive) : Except String (List (String × List String)) :=
  match a.format with
  | .targz => .ok a.dirs
  | .zip => .error "tarfile.ReadError"

/-- Contents of the per-install workspace directory `dir_path` during a
run of `_download_and_extract`: whether the downloaded archive file is
present, the subdirectories (with their files), and whether the file
`cdswctl` sits directly in the workspace. -/
structure FS where
  archivePresent : Bool
  dirs : List (String × List String)
  binaryAtTop : Bool
deriving DecidableEq, Repr

/-- Filesystem effects attempted by `_download_and_extract`, in order. -/
inductive Effect
  | downloadFile (fileName : String)
  | tarExtract (fileName : String)
  | removeFile (fileName : String)
  | renameToTop (dirName fileName : String)
  | removeDirs (dirName : String)
deriving DecidableEq, Repr

/-- Result of a run of `_download_and_extract`: the returned path (as
components) or the raised exception, the trace of attempted filesystem
effects, and the final contents of the workspace directory. -/
structure RunResult where
  outcome : Except String (List String)
  trace : List Effect
  fs : FS
deriving DecidableEq, Repr

/-- `_download_and_extract(url, ca_path)` from `cdswctl.py`, with the
external collaborators made explicit: `basePath` is
`constants.BASE_PATH_CDSWCTL` (process-wide configuration from the
`constants` module), `dirPath` the directory created by
`_cdswctl_tmp_dir_path()`, `archive` the bytes the external
`download_file` capability fetched.  Steps, in source order:
derive the file name from the URL's last segment; download; check
`Path(BASE_PATH_CDSWCTL) in Path(dir_path).parents` and raise
`RuntimeError` if it fails (before any extraction); `tarfile` extract;
`os.remove` the archive; `os.listdir(dir_path)[0]` (raises `IndexError`
on an empty listing); `os.rename` the binary to the top (raises
`FileNotFoundError` if the first directory has no `cdswctl`);
`os.removedirs` the first directory (raises `OSError` if non-empty;
errors while pruning parents are suppressed, and `dir_path` now holds
`cdswctl` so pruning stops there); return `dir_path/cdswctl`. -/
def download_and_extract (url : String) (basePath dirPath : List String)
    (archive : Archive) : RunResult :=
  let fileName := lastSegment url
  if basePath ∈ properAncestors dirPath then
    match tarfileExtract archive with
    | .error e =>
        { outcome := .error e,
          trace := [.downloadFile fileName, .tarExtract fileName],
          fs := { archivePresent := true, dirs := [], binaryAtTop := false } }
    | .ok entries =>
        match entries with
        | [] =>
            { outcome := .error "IndexError: list index out of range",
              trace := [.downloadFile fileName, .tarExtract fileName,
                        .removeFile fileName],
              fs := { archivePresent := false, dirs := [], binaryAtTop := false } }
        | (d, files) :: rest =>
            if "cdswctl" ∈ files then
              if files.erase "cdswctl" = [] then
                { outcome := .ok (dirPath ++ ["cdswctl"]),
                  trace := [.downloadFile fileName, .tarExtract fileName,
                            .removeFile fileName, .renameToTop d "cdswctl",
                            .removeDirs d],
                  fs := { archivePresent := false, dirs := rest,
                          binaryAtTop := true } }
              else
                { outcome := .error "OSError: directory not empty",
                  trace := [.downloadFile fileName, .tarExtract fileName,
                            .removeFile fileName, .renameToTop d "cdswctl",
                            .removeDirs d],
                  fs := { archivePresent := false,
                          dirs := (d, files.erase "cdswctl") :: rest,
                          binaryAtTop := true } }
            else
              { outcome := .error "FileNotFoundError",
                trace := [.downloadFile fileName, .tarExtract fileName,
                          .removeFile fileName, .renameToTop d "cdswctl"],
                fs := { archivePresent := false, dirs := (d, files) :: rest,
                        binaryAtTop := false } }
  else
    { outcome := .error "path for cdswctl could not be validated.",
      trace := [.downloadFile fileName],
      fs := { archivePresent := true, dirs := [], binaryAtTop := false } }

example :
    (download_and_extract "https://host/cli/linux/amd64/cdsw.tar.gz"
      ["tmp", "cdswctl"] ["tmp", "cdswctl", "ab12cd34ef"]
      { format := .targz, dirs := [("cdsw-dir", ["cdswctl"])] }).outcome =
    .ok ["tmp", "cdswctl", "ab12cd34ef", "cdswctl"] := by decide

example :
    (download_and_extract "https://host/cli/linux/amd64/cdsw.tar.gz"
      ["tmp", "cdswctl"] ["elsewhere"]
      { format := .targz, dirs := [("cdsw-dir", ["cdswctl"])] }).outcome =
    .error "path for cdswctl could not be validated." := by decide

/-- A path is always a proper ancestor of its extension by one component:
`basePath ∈ parents(basePath/token)`. -/
theorem mem_properAncestors_append (base : List String) (t : String) :
    base ∈ properAncestors (base ++ [t]) := by
  induction base with
  | nil => simp [properAncestors]
  | cons a as ih =>
      simp only [List.cons_append, properAncestors, List.mem_cons]
      exact Or.inr (List.mem_map.mpr ⟨as, ih, rfl⟩)

/-- C3: if the workspace directory is not a descendant of the fixed root,
`_download_and_extract` raises the validation `RuntimeError` right after
the download and performs no extraction: the trace stops at the download
and the workspace holds only the archive, no extracted state. -/
theorem c3_validation_failure_no_extraction (url : String)
    (basePath dirPath : List String) (a : Archive)
    (h : basePath ∉ properAncestors dirPath) :
    download_and_extract url basePath dirPath a =
      { outcome := .error "path for cdswctl could not be validated.",
        trace := [.downloadFile (lastSegment url)],
        fs := { archivePresent := true, dirs := [], binaryAtTop := false } } := by
  simp only [download_and_extract]
  rw [if_neg h]

/-- Witness for C3: a workspace path outside the root. -/
theorem c3_witness :
    (["tmp", "cdswctl"] : List String) ∉ properAncestors ["elsewhere"] ∧
    download_and_extract "https://host/cli/linux/amd64/cdsw.tar.gz"
        ["tmp", "cdswctl"] ["elsewhere"]
        { format := .targz, dirs := [("cdsw-dir", ["cdswctl"])] } =
      { outcome := .error "path for cdswctl could not be validated.",
        trace := [.downloadFile (lastSegment "https://host/cli/linux/amd64/cdsw.tar.gz")],
        fs := { archivePresent := true, dirs := [], binaryAtTop := false } } :=
  ⟨by decide,
   c3_validation_failure_no_extraction "https://host/cli/linux/amd64/cdsw.tar.gz"
     ["tmp", "cdswctl"] ["elsewhere"]
     { format := .targz, dirs := [("cdsw-dir", ["cdswctl"])] } (by decide)⟩

/-- C5: on a well-formed archive — exactly one top-level directory whose
contents is exactly the file `cdswctl` — a run in the workspace
`<root>/<token>` returns `<root>/<token>/cdswctl`, relocates the binary
to the top of the workspace, and leaves behind neither the downloaded
archive file nor the intermediate top-level directory. -/
theorem c5_wellformed_install (url : String) (basePath : List String)
    (token d : String) (a : Archive)
    (hfmt : a.format = .targz) (hdirs : a.dirs = [(d, ["cdswctl"])]) :
    download_and_extract url basePath (basePath ++ [token]) a =
      { outcome := .ok (basePath ++ [token, "cdswctl"]),
        trace := [.downloadFile (lastSegment url), .tarExtract (lastSegment url),
                  .removeFile (lastSegment url), .renameToTop d "cdswctl",
                  .removeDirs d],
        fs := { archivePresent := false, dirs := [], binaryAtTop := true } } := by
  have hext : tarfileExtract a = .ok [(d, ["cdswctl"])] := by
    simp [tarfileExtract, hfmt, hdirs]
  have hmem := mem_properAncestors_append basePath token
  simp only [download_and_extract, hext]
  rw [if_pos hmem]
  simp

/-- Witness for C5 at a concrete well-formed archive. -/
theorem c5_witness :
    download_and_extract "https://host/cli/linux/amd64/cdsw.tar.gz"
        ["tmp", "cdswctl"] (["tmp", "cdswctl"] ++ ["ab12cd34ef"])
        { format := .targz, dirs := [("cdsw-dir", ["cdswctl"])] } =
      { outcome := .ok (["tmp", "cdswctl"] ++ ["ab12cd34ef", "cdswctl"]),
        trace := [.downloadFile (lastSegment "https://host/cli/linux/amd64/cdsw.tar.gz"),
                  .tarExtract (lastSegment "https://host/cli/linux/amd64/cdsw.tar.gz"),
                  .removeFile (lastSegment "https://host/cli/linux/amd64/cdsw.tar.gz"),
                  .renameToTop "cdsw-dir" "cdswctl",
                  .removeDirs "cdsw-dir"],
        fs := { archivePresent := false, dirs := [], binaryAtTop := true } } :=
  c5_wellformed_install "https://host/cli/linux/amd64/cdsw.tar.gz"
    ["tmp", "cdswctl"] "ab12cd34ef" "cdsw-dir"
    { format := .targz, dirs := [("cdsw-dir", ["cdswctl"])] } rfl rfl

/-- C9 counterexample: after a path-validation failure the deletion of
the already-downloaded archive is NOT attempted — `os.remove` sits after
the `if`/`else` whose `else` raises, with no `try`/`finally` — so the
trace holds no `removeFile` and the archive file is left in the
workspace. -/
theorem c9_counterexample :
    Effect.removeFile "cdsw.tar.gz" ∉
      (download_and_extract "https://host/cli/linux/amd64/cdsw.tar.gz"
        ["tmp", "cdswctl"] ["elsewhere"]
        { format := .targz, dirs := [("cdsw-dir", ["cdswctl"])] }).trace ∧
    (download_and_extract "https://host/cli/linux/amd64/cdsw.tar.gz"
        ["tmp", "cdswctl"] ["elsewhere"]
        { format := .targz, dirs := [("cdsw-dir", ["cdswctl"])] }).outcome =
      .error "path for cdswctl could not be validated." ∧
    (download_and_extract "https://host/cli/linux/amd64/cdsw.tar.gz"
        ["tmp", "cdswctl"] ["elsewhere"]
        { format := .targz, dirs := [("cdsw-dir", ["cdswctl"])] }).fs.archivePresent
      = true := by decide

/-- C9 amended: the archive deletion step runs exactly when the steps
before it succeed — the path validation passes and the tar extraction
succeeds (the archive is a tar archive); after a path-validation failure
(or an extraction failure) the deletion is not attempted, and it is never
retried (it occurs at most once in the trace). -/
theorem c9_removal_iff_extraction_succeeded (url : String)
    (basePath dirPath : List String) (a : Archive) :
    (Effect.removeFile (lastSegment url) ∈
        (download_and_extract url basePath dirPath a).trace ↔
      (basePath ∈ properAncestors dirPath ∧ a.format = .targz)) ∧
    (download_and_extract url basePath dirPath a).trace.count
        (Effect.removeFile (lastSegment url)) ≤ 1 := by
  simp only [download_and_extract]
  by_cases hmem : basePath ∈ properAncestors dirPath
  · rw [if_pos hmem]
    cases hfmt : a.format with
    | targz =>
        simp only [tarfileExtract, hfmt]
        cases a.dirs with
        | nil => simp [hmem, List.count_cons]
        | cons e rest =>
            obtain ⟨d, files⟩ := e
            dsimp only
            by_cases hcont : "cdswctl" ∈ files
            · rw [if_pos hcont]
              by_cases hemp : files.erase "cdswctl" = []
              · rw [if_pos hemp]
                simp [hmem, List.count_cons]
              · rw [if_neg hemp]
                simp [hmem, List.count_cons]
            · rw [if_neg hcont]
              simp [hmem, List.count_cons]
    | zip =>
        simp only [tarfileExtract, hfmt]
        simp [hmem, List.count_cons]
  · rw [if_neg hmem]
    simp [hmem, List.count_cons]

/-- C4 (code bug): extraction is NOT format-aware.  The windows fallback
of `_get_cdswctl_download_url` downloads `cli/windows/amd64/cdsw.zip`,
a zip archive, but `_download_and_extract` unconditionally calls
`tarfile.open`/`extractall` (there is no `zipfile` use in the file), so
on the windows fallback the install raises `tarfile.ReadError` instead
of extracting the zip archive. -/
theorem c4_zip_never_extracted :
    cdswctlRelPath "win32" = "windows/amd64/cdsw.zip" ∧
    archiveFormatOfName
        (lastSegment "https://host/cli/windows/amd64/cdsw.zip") = .zip ∧
    download_and_extract "https://host/cli/windows/amd64/cdsw.zip"
        ["tmp", "cdswctl"] ["tmp", "cdswctl", "ab12cd34ef"]
        { format := .zip, dirs := [("cdsw-dir", ["cdswctl"])] } =
      { outcome := .error "tarfile.ReadError",
        trace := [.downloadFile "cdsw.zip", .tarExtract "cdsw.zip"],
        fs := { archivePresent := true, dirs := [], binaryAtTop := false } } := by
  decide

/-- ASCII lower-casing of one character (Python `str.lower` on the ASCII
strings involved here). -/
def pyLowerChar (c : Char) : Char :=
  if 'A' ≤ c ∧ c ≤ 'Z' then Char.ofNat (c.toNat + 32) else c

/-- Python `s.lower()`, used on `ca_path` by `cdswctl_login`. -/
def pyLower (s : String) : String :=
  ⟨s.toList.map pyLowerChar⟩

/-- Does `l` start with `pat`? (structural, for substring search). -/
def listStartsWith : List Char → List Char → Bool
  | _, [] => true
  | [], _ :: _ => false
  | c :: cs, p :: ps => c = p && listStartsWith cs ps

/-- Does `l` contain `pat` as a contiguous run? -/
def listHasSub (l pat : List Char) : Bool :=
  match l with
  | [] => pat.isEmpty
  | _ :: rest => listStartsWith l pat || listHasSub rest pat

/-- Substring occurrence on strings, for stating what a rendered log line
does or does not contain. -/
def strContainsSub (s pat : String) : Bool :=
  listHasSub s.toList pat.toList

/-- Join a list of strings with single spaces: Python `" ".join(lst)`,
used to render the command log line. -/
def joinSpace : List String → String
  | [] => ""
  | [a] => a
  | a :: b :: rest => a ++ " " ++ joinSpace (b :: rest)

/-- Result of `subprocess.run` for the login command (the external
process collaborator): exit status and captured output streams. -/
structure ProcResult where
  returncode : Int
  stdout : String
  stderr : String
deriving DecidableEq, Repr

/-- The argument vector built by `cdswctl_login` (`cdswctl.py`):
`[cdswctl_path, "login", "-n", username, "-u", host, "-y", api_key]`,
with `--insecure-skip-verify` appended when `ca_path.lower() == "false"`. -/
def loginCmd (cdswctl_path host username api_key ca_path : String) : List String :=
  if pyLower ca_path = "false" then
    [cdswctl_path, "login", "-n", username, "-u", host, "-y", api_key,
     "--insecure-skip-verify"]
  else
    [cdswctl_path, "login", "-n", username, "-u", host, "-y", api_key]

/-- Python `masked_cmd = cmd.copy(); i = cmd.index(api_key) if api_key in
cmd else -1; if i != -1: masked_cmd[i] = "<api_key>"`: replace the FIRST
element equal to the key with the mask, leave the rest unchanged. -/
def maskFirst : List String → String → List String
  | [], _ => []
  | a :: as, key => if a = key then "<api_key>" :: as else a :: maskFirst as key

/-- One run of `cdswctl_login`: the masked argument list, the rendered
debug log line, the error-log lines emitted on failure, and the outcome
(`.error msg` is the raised `Exception(msg)`, `.ok` the returned
`CompletedProcess`). -/
structure LoginRun where
  maskedCmd : List String
  commandLog : String
  errorLogs : List String
  outcome : Except String ProcResult
deriving DecidableEq, Repr

/-- `cdswctl_login(cdswctl_path, host, username, api_key, ca_path)` from
`cdswctl.py`, with `subprocess.run` abstracted as the function `run` from
argument vectors to process results.  The command log line is
`"cdswctl login command: " + " ".join(masked_cmd)`; on
`result.returncode != 0` the code logs
`"cdswctl login failed: " + result.stderr` and raises
`Exception("cdswctl login failed with return code <rc>")`. -/
def cdswctl_login (cdswctl_path host username api_key ca_path : String)
    (run : List String → ProcResult) : LoginRun :=
  if (run (loginCmd cdswctl_path host username api_key ca_path)).returncode ≠ 0 then
    { maskedCmd := maskFirst (loginCmd cdswctl_path host username api_key ca_path) api_key,
      commandLog := "cdswctl login command: "
        ++ joinSpace (maskFirst (loginCmd cdswctl_path host username api_key ca_path) api_key),
      errorLogs := ["cdswctl login failed: "
        ++ (run (loginCmd cdswctl_path host username api_key ca_path)).stderr],
      outcome := .error ("cdswctl login failed with return code "
        ++ toString (run (loginCmd cdswctl_path host username api_key ca_path)).returncode) }
  else
    { maskedCmd := maskFirst (loginCmd cdswctl_path host username api_key ca_path) api_key,
      commandLog := "cdswctl login command: "
        ++ joinSpace (maskFirst (loginCmd cdswctl_path host username api_key ca_path) api_key),
      errorLogs := [],
      outcome := .ok (run (loginCmd cdswctl_path host username api_key ca_path)) }

example :
    (cdswctl_login "/bin/cdswctl" "https://h" "alice" "sekret" "FALSE"
      (fun _ => { returncode := 0, stdout := "ok", stderr := "" })).maskedCmd =
    ["/bin/cdswctl", "login", "-n", "alice", "-u", "https://h", "-y",
     "<api_key>", "--insecure-skip-verify"] := by decide

example :
    (cdswctl_login "/bin/cdswctl" "https://h" "alice" "sekret" ""
      (fun _ => { returncode := 1, stdout := "", stderr := "boom" })).outcome =
    .error "cdswctl login failed with return code 1" := by decide

/-- C6: whenever the external login process exits with a non-zero status,
`cdswctl_login` raises (the `AuthError` of the spec's taxonomy) and the
failure carries the captured standard-error text: the emitted error
diagnostic is `"cdswctl login failed: " ++ stderr`, while the exception
message names the return code. -/
theorem c6_nonzero_exit_raises (cdswctl_path host username api_key ca_path : String)
    (run : List String → ProcResult)
    (hrc : (run (loginCmd cdswctl_path host username api_key ca_path)).returncode ≠ 0) :
    (cdswctl_login cdswctl_path host username api_key ca_path run).outcome =
      .error ("cdswctl login failed with return code "
        ++ toString (run (loginCmd cdswctl_path host username api_key ca_path)).returncode) ∧
    ("cdswctl login failed: "
        ++ (run (loginCmd cdswctl_path host username api_key ca_path)).stderr) ∈
      (cdswctl_login cdswctl_path host username api_key ca_path run).errorLogs := by
  unfold cdswctl_login
  rw [if_pos hrc]
  exact ⟨rfl, List.mem_singleton.mpr rfl⟩

/-- Witness for C6 at a run that exits with status 1 and standard error
`"auth denied"`. -/
theorem c6_witness :
    (cdswctl_login "/bin/cdswctl" "https://h" "alice" "sekret" ""
        (fun _ => { returncode := 1, stdout := "", stderr := "auth denied" })).outcome =
      .error ("cdswctl login failed with return code "
        ++ toString ((fun _ => ({ returncode := 1, stdout := "", stderr := "auth denied" } : ProcResult))
            (loginCmd "/bin/cdswctl" "https://h" "alice" "sekret" "")).returncode) ∧
    ("cdswctl login failed: "
        ++ ((fun _ => ({ returncode := 1, stdout := "", stderr := "auth denied" } : ProcResult))
            (loginCmd "/bin/cdswctl" "https://h" "alice" "sekret" "")).stderr) ∈
      (cdswctl_login "/bin/cdswctl" "https://h" "alice" "sekret" ""
        (fun _ => { returncode := 1, stdout := "", stderr := "auth denied" })).errorLogs :=
  c6_nonzero_exit_raises "/bin/cdswctl" "https://h" "alice" "sekret" ""
    (fun _ => { returncode := 1, stdout := "", stderr := "auth denied" }) (by decide)

/-- C7 counterexample: with `username = api_key = "secret"`, the masking
replaces only the FIRST element equal to the key (the username slot), so
the literal key still appears in the rendered argument list and in the
rendered command log line. -/
theorem c7_counterexample :
    "secret" ∈ (cdswctl_login "/bin/cdswctl" "https://h" "secret" "secret" ""
        (fun _ => { returncode := 0, stdout := "", stderr := "" })).maskedCmd ∧
    strContainsSub (cdswctl_login "/bin/cdswctl" "https://h" "secret" "secret" ""
        (fun _ => { returncode := 0, stdout := "", stderr := "" })).commandLog
      "secret" = true := by decide

/-- C7 amended: masking replaces the first argument equal to the key, so
whenever no other argument of the vector (binary path, username, host,
the literal flags, or the mask text itself) equals the `api_key` string,
the literal key does not appear in the rendered (masked) argument list;
when another argument does equal the key (e.g. username = api_key), the
literal key survives masking and is rendered. -/
theorem c7_masking_when_key_unambiguous
    (cdswctl_path host username api_key ca_path : String)
    (run : List String → ProcResult)
    (h1 : api_key ≠ cdswctl_path) (h2 : api_key ≠ username) (h3 : api_key ≠ host)
    (h4 : api_key ≠ "login") (h5 : api_key ≠ "-n") (h6 : api_key ≠ "-u")
    (h7 : api_key ≠ "-y") (h8 : api_key ≠ "--insecure-skip-verify")
    (h9 : api_key ≠ "<api_key>") :
    api_key ∉ (cdswctl_login cdswctl_path host username api_key ca_path run).maskedCmd := by
  have hmask : (cdswctl_login cdswctl_path host username api_key ca_path run).maskedCmd
      = maskFirst (loginCmd cdswctl_path host username api_key ca_path) api_key := by
    unfold cdswctl_login
    split
    · rfl
    · rfl
  rw [hmask]
  unfold loginCmd
  by_cases hc : pyLower ca_path = "false"
  · rw [if_pos hc]
    simp [maskFirst, h1, Ne.symm h1, h2, Ne.symm h2, h3, Ne.symm h3,
      h4, Ne.symm h4, h5, Ne.symm h5, h6, Ne.symm h6, h7, Ne.symm h7,
      h8, Ne.symm h8, h9]
  · rw [if_neg hc]
    simp [maskFirst, h1, Ne.symm h1, h2, Ne.symm h2, h3, Ne.symm h3,
      h4, Ne.symm h4, h5, Ne.symm h5, h6, Ne.symm h6, h7, Ne.symm h7,
      h8, Ne.symm h8, h9]

/-- Witness for amended C7 at concrete distinct argument values. -/
theorem c7_witness :
    "sekret" ∉ (cdswctl_login "/bin/cdswctl" "https://h" "alice" "sekret" ""
        (fun _ => { returncode := 0, stdout := "", stderr := "" })).maskedCmd :=
  c7_masking_when_key_unambiguous "/bin/cdswctl" "https://h" "alice" "sekret" ""
    (fun _ => { returncode := 0, stdout := "", stderr := "" })
    (by decide) (by decide) (by decide) (by decide) (by decide) (by decide)
    (by decide) (by decide) (by decide)
